import Mathlib

/-!
# neobox, package `wguard` (`pkgs/wguard/wgcf.go`)

A shallow embedding of the Cloudflare-Warp account life cycle of neobox
(`Register`, `Update`, `Generate`, `Status`, `parseReserved`) and of the
pieces of the Go standard library that `parseReserved` runs
(`base64.StdEncoding.DecodeString`, `hex.EncodeToString`, `strconv.ParseInt`).

Conventions.

* A Go `string` and a Go `[]byte` are both a list of bytes, each byte a `Nat`
  below 256 (`GoString`).  String literals are written `str "..."`.
* Remote calls, key generation and file writes are calls into an environment
  `Env`; every such call is appended, with its answer, to the field `log` of
  the receiver, so that "makes no remote call" is a statement about `log`.
  The answer of the environment may depend on everything logged so far.
* Console output (`tui.Print*`, `fmt.Println`, `PrintDevice`) is not modelled.
-/

namespace Wguard

/-! ## Go strings -/

/-- A Go string or byte slice: its bytes, in order. -/
abbrev GoString := List Nat

/-- The bytes (UTF-8) of a string literal. -/
def str (s : String) : GoString :=
  (s.toList.flatMap String.utf8EncodeChar).map UInt8.toNat

/-! ## `encoding/base64`, `StdEncoding` -/

/-- The table `decodeMap` of `StdEncoding`: the six-bit value of a byte of the alphabet
`A–Z a–z 0–9 + /`, and `0xff` for any other byte. -/
def decodeMap (c : Nat) : Nat :=
  if 65 ≤ c ∧ c ≤ 90 then c - 65
  else if 97 ≤ c ∧ c ≤ 122 then c - 97 + 26
  else if 48 ≤ c ∧ c ≤ 57 then c - 48 + 52
  else if c = 43 then 62
  else if c = 47 then 63
  else 0xff

/-- The padding character `'='` of `StdEncoding`. -/
def padChar : Nat := 61

/-- The loop `for si < len(src) && (src[si] == '\n' || src[si] == '\r') { si++ }`
of `decodeQuantum`, on the rest of the input. -/
def skipNewlines : GoString → GoString
  | [] => []
  | c :: cs => if c = 10 ∨ c = 13 then skipNewlines cs else c :: cs

/-- The tail of `decodeQuantum`: the sextets `dbuf` (missing ones are zero) are packed
into `val`, split into three bytes, of which the first `dlen - 1` are written. -/
def quantumBytes (dbuf : List Nat) (dlen : Nat) : List Nat :=
  let val := (dbuf.getD 0 0 <<< 18) ||| (dbuf.getD 1 0 <<< 12) ||| (dbuf.getD 2 0 <<< 6)
    ||| dbuf.getD 3 0
  [(val >>> 16) % 256, (val >>> 8) % 256, val % 256].take (dlen - 1)

/-- The decoder `(*Encoding).Decode` of `StdEncoding` (padded, not strict): the loop of
`decodeQuantum` calls, in one pass over the input.  `dbuf` holds the sextets already read
for the current quantum (`j = dbuf.length`).  `none` is a `CorruptInputError`. -/
def decodeFrom : GoString → List Nat → Option (List Nat)
  | [], dbuf =>
    -- `len(src) == si`: fine between two quanta, corrupt inside one
    if dbuf.length = 0 then some [] else none
  | c :: cs, dbuf =>
    if decodeMap c ≠ 0xff then
      if dbuf.length = 3 then
        -- the quantum is complete: three bytes, and on to the next quantum
        (decodeFrom cs []).map (fun out => quantumBytes (dbuf ++ [decodeMap c]) 4 ++ out)
      else decodeFrom cs (dbuf ++ [decodeMap c])
    else if c = 10 ∨ c = 13 then decodeFrom cs dbuf
    else if c ≠ padChar then none
    else if dbuf.length = 0 ∨ dbuf.length = 1 then none
    else if dbuf.length = 2 then
      -- "==" is expected, the first "=" is already consumed
      match skipNewlines cs with
      | [] => none
      | c2 :: cs2 =>
        if c2 ≠ padChar then none
        else if skipNewlines cs2 ≠ [] then none
        else some (quantumBytes dbuf 2)
    else
      if skipNewlines cs ≠ [] then none
      else some (quantumBytes dbuf 3)

/-- The function `base64.StdEncoding.DecodeString`: the decoded bytes, or `none` when it
returns a non-nil error. -/
def DecodeString (s : GoString) : Option (List Nat) := decodeFrom s []

/-! ## `encoding/hex` -/

/-- The constant `hextable`. -/
def hextable : GoString := str "0123456789abcdef"

/-- The function `hex.EncodeToString`: `hextable[v>>4]`, `hextable[v&0x0f]` for each byte
`v` of `src`. -/
def EncodeToString (src : List Nat) : GoString :=
  src.flatMap (fun v => [hextable.getD (v >>> 4) 0, hextable.getD (v &&& 0x0f) 0])

/-! ## `strconv` -/

/-- The two errors of `strconv`: `ErrSyntax` and `ErrRange`. -/
inductive NumError
  | ErrSyntax
  | ErrRange
deriving DecidableEq, Repr

/-- The helper `lower` of `strconv`: `c | ('x' - 'X')`. -/
def lower (c : Nat) : Nat := c ||| 32

/-- The digit loop of `strconv.ParseUint(s, base, 64)` for `2 ≤ base ≤ 36`: `n` is the
value read so far, the list the bytes still to read.  The result is the `uint64` returned
and the error returned with it. -/
def parseDigits (base : Nat) : Nat → GoString → Nat × Option NumError
  | n, [] => (n, none)
  | n, c :: cs =>
    let maxVal := 2 ^ 64 - 1
    let cutoff := maxVal / base + 1
    let d? : Option Nat :=
      if 48 ≤ c ∧ c ≤ 57 then some (c - 48)
      else if 97 ≤ lower c ∧ lower c ≤ 122 then some (lower c - 97 + 10)
      else none
    match d? with
    | none => (0, some .ErrSyntax)
    | some d =>
      if d ≥ base then (0, some .ErrSyntax)
      else if n ≥ cutoff then (maxVal, some .ErrRange)
      else if n * base + d > maxVal then (maxVal, some .ErrRange)
      else parseDigits base (n * base + d) cs

/-- The function `strconv.ParseUint(s, base, 64)` for `2 ≤ base ≤ 36`. -/
def ParseUint (s : GoString) (base : Nat) : Nat × Option NumError :=
  if s = [] then (0, some .ErrSyntax) else parseDigits base 0 s

/-- The function `strconv.ParseInt(s, base, 64)` for `2 ≤ base ≤ 36`: the `int64` returned
and the error returned with it. -/
def ParseInt (s : GoString) (base : Nat) : Int × Option NumError :=
  match s with
  | [] => (0, some .ErrSyntax)
  | c :: cs =>
    let neg : Bool := c = 45
    let s1 := if c = 43 ∨ c = 45 then cs else s
    let cutoff : Nat := 2 ^ 63
    match ParseUint s1 base with
    | (_, some .ErrSyntax) => (0, some .ErrSyntax)
    | (un, _) =>
      if ¬ neg ∧ un ≥ cutoff then (((cutoff - 1 : Nat) : Int), some .ErrRange)
      else if neg ∧ un > cutoff then (-(cutoff : Int), some .ErrRange)
      else (if neg then -(un : Int) else (un : Int), none)

/-! ## Data: local records -/

/-- A Go `error` value, by its message. -/
abbrev Error := String

/-- A WireGuard key, by its textual form (`Key.String()`). -/
abbrev Key := GoString

/-- The account record `WGaurdConf` (`wgcf-account.json`), by the fields `wgcf.go` uses. -/
structure WGaurdConf where
  PrivateKey : GoString
  DeviceId : GoString
  AccessToken : GoString
  LicenseKey : GoString
deriving DecidableEq, Repr

/-- The profile configuration `WarpConf` (`wgcf-config.json`), by the fields `wgcf.go`
uses. -/
structure WarpConf where
  PrivateKey : GoString
  AddrV4 : GoString
  AddrV6 : GoString
  PublicKey : GoString
  Endpoint : GoString
  ClientID : GoString
  Reserved : List Int
deriving DecidableEq, Repr

/-- The argument `ProfileData` of `NewProfile`, with the five fields `Generate` sets. -/
structure ProfileData where
  PrivateKey : GoString
  Address1 : GoString
  Address2 : GoString
  PublicKey : GoString
  Endpoint : GoString
deriving DecidableEq, Repr

/-- The rendered tunnel profile returned by `NewProfile`: its text. -/
structure Profile where
  text : GoString
deriving DecidableEq, Repr

/-! ## Data: `cloudflare` and `config` of wgcf -/

/-- The type `cloudflare.Account`, by the field read here. -/
structure Account where
  License : GoString
deriving DecidableEq, Repr

/-- The addresses of the interface of a device configuration. -/
structure Addresses where
  V4 : GoString
  V6 : GoString
deriving DecidableEq, Repr

/-- The interface of a device configuration. -/
structure Interface where
  Addresses : Addresses
deriving DecidableEq, Repr

/-- The endpoint of a peer. -/
structure Endpoint where
  Host : GoString
deriving DecidableEq, Repr

/-- A peer of a device configuration. -/
structure Peer where
  PublicKey : GoString
  Endpoint : Endpoint
deriving DecidableEq, Repr

/-- The configuration carried by a device. -/
structure Config where
  ClientId : GoString
  Interface : Interface
  Peers : List Peer
deriving DecidableEq, Repr

/-- The type `cloudflare.Device`, by the fields read here. -/
structure Device where
  Id : GoString
  Token : GoString
  Key : GoString
  Account : Account
  Config : Config
deriving DecidableEq, Repr

/-- The type `cloudflare.BoundDevice`: `Name` is a `*string`, `none` when nil. -/
structure BoundDevice where
  Name : Option GoString
  Active : Bool
deriving DecidableEq, Repr

/-- The type `config.Context`. -/
structure Context where
  DeviceId : GoString
  AccessToken : GoString
  LicenseKey : GoString
deriving DecidableEq, Repr

/-- Modelled from the spec: the helper `CreateContext` of package `wguard` is not in
`wgcf.go`; "`ctx` is a connection context built from the current AccountRecord (device id,
access token, license key); it is immutable within one call chain". -/
def CreateContext (c : WGaurdConf) : Context :=
  { DeviceId := c.DeviceId, AccessToken := c.AccessToken, LicenseKey := c.LicenseKey }

/-- A value-or-error answer `(v, err)` of a call. -/
inductive Res (α : Type) where
  | ok (v : α)
  | err (e : Error)
deriving DecidableEq, Repr

/-! ## The environment and its log -/

/-- One call out of `wgcf.go`, with its arguments and its answer. -/
inductive Event where
  /-- The call `wireguard.NewPrivateKey()`. -/
  | NewPrivateKey (r : Res Key)
  /-- The call `cloudflare.Register(publicKey, deviceModel)`. -/
  | Register (publicKey : Key) (deviceModel : GoString) (r : Res Device)
  /-- The call `cloudflare.GetSourceDevice(ctx)`. -/
  | GetSourceDevice (ctx : Context) (r : Res Device)
  /-- The call `cloudflare.GetSourceBoundDevice(ctx)`. -/
  | GetSourceBoundDevice (ctx : Context) (r : Res BoundDevice)
  /-- The call `SetDeviceName(ctx, deviceName)`. -/
  | SetDeviceName (ctx : Context) (deviceName : GoString) (r : Res BoundDevice)
  /-- The call `cloudflare.UpdateSourceBoundDeviceActive(ctx, active)`. -/
  | UpdateSourceBoundDeviceActive (ctx : Context) (active : Bool) (r : Res BoundDevice)
  /-- The call `cloudflare.UpdateLicenseKey(ctx, publicKey)`; only its error is read. -/
  | UpdateLicenseKey (ctx : Context) (publicKey : GoString) (err : Option Error)
  /-- The call `cloudflare.GetAccount(ctx)`. -/
  | GetAccount (ctx : Context) (r : Res Account)
  /-- The call `wguardConf.Save()`: the record written and whether the write failed. -/
  | SaveWGaurdConf (c : WGaurdConf) (err : Option Error)
  /-- The call `warpConf.Save()`: the record written and whether the write failed. -/
  | SaveWarpConf (c : WarpConf) (err : Option Error)
  /-- The call `profile.Save(path)`. -/
  | SaveProfile (profile : Profile) (path : GoString) (err : Option Error)
deriving DecidableEq, Repr

/-- Whether an event is a call to the remote registration service. -/
def Event.isRemote : Event → Bool
  | .Register _ _ _ => true
  | .GetSourceDevice _ _ => true
  | .GetSourceBoundDevice _ _ => true
  | .SetDeviceName _ _ _ => true
  | .UpdateSourceBoundDeviceActive _ _ _ => true
  | .UpdateLicenseKey _ _ _ => true
  | .GetAccount _ _ => true
  | _ => false

/-- Whether an event is a key generation. -/
def Event.isKeyGen : Event → Bool
  | .NewPrivateKey _ => true
  | _ => false

/-- Whether an event is the license-key rotation call. -/
def Event.isRotation : Event → Bool
  | .UpdateLicenseKey _ _ _ => true
  | _ => false

/-- Whether an event is a write to disk. -/
def Event.isWrite : Event → Bool
  | .SaveWGaurdConf _ _ => true
  | .SaveWarpConf _ _ => true
  | .SaveProfile _ _ _ => true
  | _ => false

/-- Everything `wgcf.go` calls and this file does not define: the packages `cloudflare` and
`wireguard` of wgcf, and the parts of package `wguard` that live outside `wgcf.go`
(`SetDeviceName`, `NewProfile`, `Profile.Save`, `WGaurdConf.Save`, `WarpConf.Save`).
Each effectful call receives the log so far, so that its answer may change from one call
to the next.  The two `Save` methods of the records have their result, if any, dropped by
every caller in `wgcf.go`; the environment still says whether the write failed. -/
structure Env where
  NewPrivateKey : List Event → Res Key
  Public : Key → Key
  Register : List Event → Key → GoString → Res Device
  GetSourceDevice : List Event → Context → Res Device
  GetSourceBoundDevice : List Event → Context → Res BoundDevice
  SetDeviceName : List Event → Context → GoString → Res BoundDevice
  UpdateSourceBoundDeviceActive : List Event → Context → Bool → Res BoundDevice
  UpdateLicenseKey : List Event → Context → GoString → Option Error
  GetAccount : List Event → Context → Res Account
  SaveWGaurdConf : List Event → WGaurdConf → Option Error
  SaveWarpConf : List Event → WarpConf → Option Error
  NewProfile : ProfileData → Res Profile
  SaveProfile : List Event → Profile → GoString → Option Error

/-- The receiver `WGaurd`: the two records, the path of the tunnel profile, and the log of
the calls made so far. -/
structure WGaurd where
  wguardConf : WGaurdConf
  warpConf : WarpConf
  warpConfFilePath : GoString
  log : List Event
deriving DecidableEq, Repr

/-- How a method ends: it returns `nil`, it returns an error, or it panics. -/
inductive Outcome where
  | ok
  | error (e : Error)
  | panic
deriving DecidableEq, Repr

/-- Appends one event to the log. -/
def WGaurd.record (that : WGaurd) (e : Event) : WGaurd :=
  { that with log := that.log ++ [e] }

/-- The statement `that.wguardConf.Save()`. -/
def WGaurd.saveWGaurdConf (env : Env) (that : WGaurd) : WGaurd :=
  that.record (.SaveWGaurdConf that.wguardConf (env.SaveWGaurdConf that.log that.wguardConf))

/-- The statement `that.warpConf.Save()`. -/
def WGaurd.saveWarpConf (env : Env) (that : WGaurd) : WGaurd :=
  that.record (.SaveWarpConf that.warpConf (env.SaveWarpConf that.log that.warpConf))

/-- The statements `that.wguardConf.LicenseKey = licenseKey` and `that.wguardConf.Save()`
of `Update`. -/
def WGaurd.storeLicenseKey (env : Env) (that : WGaurd) (licenseKey : GoString) : WGaurd :=
  WGaurd.saveWGaurdConf env
    { that with wguardConf := { that.wguardConf with LicenseKey := licenseKey } }

/-! ## The methods of `WGaurd` -/

/-- The method `WGaurd.IsAccountValid`. -/
def IsAccountValid (that : WGaurd) : Bool :=
  if that.wguardConf.DeviceId = [] ∨ that.wguardConf.AccessToken = [] ∨
      that.wguardConf.PrivateKey = [] then
    false
  else
    true

/-- The method `WGaurd.Register`. -/
def Register (env : Env) (that : WGaurd) : WGaurd × Outcome :=
  if that.wguardConf.DeviceId ≠ [] ∧ that.wguardConf.AccessToken ≠ [] ∧
      that.wguardConf.LicenseKey ≠ [] then
    (that, .ok)
  else
    let r := env.NewPrivateKey that.log
    let that := that.record (.NewPrivateKey r)
    match r with
    | .err e => (that, .error e)
    | .ok privateKey =>
      let r := env.Register that.log (env.Public privateKey) (str "PC")
      let that := that.record (.Register (env.Public privateKey) (str "PC") r)
      match r with
      | .err e => (that, .error e)
      | .ok device =>
        let that := { that with wguardConf :=
          { PrivateKey := privateKey, DeviceId := device.Id, AccessToken := device.Token,
            LicenseKey := device.Account.License } }
        let that := that.saveWGaurdConf env
        let ctx := CreateContext that.wguardConf
        let r := env.SetDeviceName that.log ctx []
        let that := that.record (.SetDeviceName ctx [] r)
        match r with
        | .err e => (that, .error e)
        | .ok _ =>
          let r := env.GetSourceDevice that.log ctx
          let that := that.record (.GetSourceDevice ctx r)
          match r with
          | .err e => (that, .error e)
          | .ok _ =>
            let r := env.UpdateSourceBoundDeviceActive that.log ctx true
            let that := that.record (.UpdateSourceBoundDeviceActive ctx true r)
            match r with
            | .err e => (that, .error e)
            | .ok boundDevice =>
              if !boundDevice.Active then (that, .error "failed to activate device")
              else (that, .ok)

/-- The method `WGaurd.updateLicenseKey`: the receiver afterwards and `(thisDevice, err)`;
the account returned first is dropped by the only caller. -/
def updateLicenseKey (env : Env) (that : WGaurd) (ctx : Context) : WGaurd × Res Device :=
  let r := env.NewPrivateKey that.log
  let that := that.record (.NewPrivateKey r)
  match r with
  | .err e => (that, .err e)
  | .ok newPrivateKey =>
    let newPublicKey := env.Public newPrivateKey
    let r := env.UpdateLicenseKey that.log ctx newPublicKey
    let that := that.record (.UpdateLicenseKey ctx newPublicKey r)
    match r with
    | some e => (that, .err e)
    | none =>
      let that := { that with wguardConf := { that.wguardConf with PrivateKey := newPrivateKey } }
      let that := that.saveWGaurdConf env
      let r := env.GetAccount that.log ctx
      let that := that.record (.GetAccount ctx r)
      match r with
      | .err e => (that, .err e)
      | .ok account =>
        let r := env.GetSourceDevice that.log ctx
        let that := that.record (.GetSourceDevice ctx r)
        match r with
        | .err e => (that, .err e)
        | .ok thisDevice =>
          if account.License ≠ ctx.LicenseKey then
            (that, .err "failed to update license key")
          else if thisDevice.Key ≠ newPublicKey then
            (that, .err "failed to update public key")
          else (that, .ok thisDevice)

/-- The method `WGaurd.ensureLicenseKeyUpToDate`. -/
def ensureLicenseKeyUpToDate (env : Env) (that : WGaurd) (ctx : Context)
    (thisDevice : Device) : WGaurd × Res Device :=
  if thisDevice.Account.License ≠ ctx.LicenseKey then
    updateLicenseKey env that ctx
  else
    (that, .ok thisDevice)

/-- The end of `Update`, from the call `cloudflare.UpdateSourceBoundDeviceActive(ctx, true)`
on; both branches of the renaming step continue here. -/
def activate (env : Env) (that : WGaurd) (ctx : Context) : WGaurd × Outcome :=
  let r := env.UpdateSourceBoundDeviceActive that.log ctx true
  let that := that.record (.UpdateSourceBoundDeviceActive ctx true r)
  match r with
  | .err e => (that, .error e)
  | .ok boundDevice =>
    if !boundDevice.Active then (that, .error "failed activating device")
    else (that, .ok)

/-- The part of `Update` after the license key has been reconciled: the bound device is
fetched, renamed when its name is nil or differs from a non-empty `deviceName`, and
activated. -/
def bindDevice (env : Env) (that : WGaurd) (ctx : Context) (deviceName : GoString) :
    WGaurd × Outcome :=
  let r := env.GetSourceBoundDevice that.log ctx
  let that := that.record (.GetSourceBoundDevice ctx r)
  match r with
  | .err e => (that, .error e)
  | .ok boundDevice =>
    if boundDevice.Name = none ∨ (deviceName ≠ [] ∧ some deviceName ≠ boundDevice.Name) then
      let r := env.SetDeviceName that.log ctx deviceName
      let that := that.record (.SetDeviceName ctx deviceName r)
      match r with
      | .err e => (that, .error e)
      | .ok _ => activate env that ctx
    else activate env that ctx

/-- The method `WGaurd.Update`. -/
def Update (env : Env) (that : WGaurd) (licenseKey deviceName : GoString) :
    WGaurd × Outcome :=
  if !IsAccountValid that then (that, .error "invalid account")
  else if licenseKey = [] then (that, .ok)
  else
    let that := that.storeLicenseKey env licenseKey
    let ctx := CreateContext that.wguardConf
    let r := env.GetSourceDevice that.log ctx
    let that := that.record (.GetSourceDevice ctx r)
    match r with
    | .err e => (that, .error e)
    | .ok thisDevice =>
      let p := ensureLicenseKeyUpToDate env that ctx thisDevice
      match p.2 with
      | .err e => (p.1, .error e)
      | .ok _ => bindDevice env p.1 ctx deviceName

/-- The loop of `parseReserved` over `hexString`, two bytes at a time: `none` is the panic
of the slice `hexString[i : i+2]` when a single byte is left. -/
def reservedLoop : GoString → Option (List Int)
  | [] => some []
  | [_] => none
  | a :: b :: rest =>
    (reservedLoop rest).map (fun reserved => (ParseInt [a, b] 16).1 :: reserved)

/-- The method `WGaurd.parseReserved`; `none` is a panic. -/
def parseReserved (that : WGaurd) : Option WGaurd :=
  let clientID := that.warpConf.ClientID
  match DecodeString clientID with
  | none => some that
  | some decoded =>
    let hexString := EncodeToString decoded
    (reservedLoop hexString).map (fun reserved =>
      { that with warpConf := { that.warpConf with Reserved := reserved } })

/-- The method `WGaurd.Generate`. -/
def Generate (env : Env) (that : WGaurd) : WGaurd × Outcome :=
  if !IsAccountValid that then (that, .error "invalid account")
  else
    let ctx := CreateContext that.wguardConf
    let r := env.GetSourceDevice that.log ctx
    let that := that.record (.GetSourceDevice ctx r)
    match r with
    | .err e => (that, .error e)
    | .ok thisDevice =>
      let r := env.GetSourceBoundDevice that.log ctx
      let that := that.record (.GetSourceBoundDevice ctx r)
      match r with
      | .err e => (that, .error e)
      | .ok _ =>
        match thisDevice.Config.Peers with
        | [] => (that, .panic)
        | peer0 :: _ =>
          match env.NewProfile
              { PrivateKey := that.wguardConf.PrivateKey,
                Address1 := thisDevice.Config.Interface.Addresses.V4,
                Address2 := thisDevice.Config.Interface.Addresses.V6,
                PublicKey := peer0.PublicKey,
                Endpoint := peer0.Endpoint.Host } with
          | .err e => (that, .error e)
          | .ok profile =>
            let r := env.SaveProfile that.log profile that.warpConfFilePath
            let that := that.record (.SaveProfile profile that.warpConfFilePath r)
            match r with
            | some e => (that, .error e)
            | none =>
              let that := { that with warpConf :=
                { that.warpConf with
                  PrivateKey := that.wguardConf.PrivateKey,
                  AddrV4 := thisDevice.Config.Interface.Addresses.V4,
                  AddrV6 := thisDevice.Config.Interface.Addresses.V6,
                  PublicKey := peer0.PublicKey,
                  Endpoint := peer0.Endpoint.Host,
                  ClientID := thisDevice.Config.ClientId } }
              match parseReserved that with
              | none => (that, .panic)
              | some that => (that.saveWarpConf env, .ok)

/-- The method `WGaurd.Status`. -/
def Status (env : Env) (that : WGaurd) : WGaurd × Outcome :=
  if !IsAccountValid that then (that, .error "invalid account")
  else
    let ctx := CreateContext that.wguardConf
    let r := env.GetSourceDevice that.log ctx
    let that := that.record (.GetSourceDevice ctx r)
    match r with
    | .err e => (that, .error e)
    | .ok _ =>
      let r := env.GetSourceBoundDevice that.log ctx
      let that := that.record (.GetSourceBoundDevice ctx r)
      match r with
      | .err e => (that, .error e)
      | .ok _ => (that, .ok)

/-- The method `WGaurd.Run`. -/
def Run (env : Env) (that : WGaurd) (licenseKey : GoString) : WGaurd × Outcome :=
  let go (that : WGaurd) : WGaurd × Outcome :=
    match Update env that licenseKey [] with
    | (that, .ok) => Generate env that
    | r => r
  if !IsAccountValid that then
    match Register env that with
    | (that, .ok) => go that
    | r => r
  else go that

/-! ## Sample data -/

/-- A sample remote device, with the given client id, license and public key. -/
def sampleDevice (clientId license key : GoString) : Device :=
  { Id := str "dev-1", Token := str "tok-1", Key := key,
    Account := { License := license },
    Config :=
      { ClientId := clientId,
        Interface := { Addresses := { V4 := str "172.16.0.2", V6 := str "fd01::2" } },
        Peers := [{ PublicKey := str "peer-pub", Endpoint := { Host := str "engage:2408" } }] } }

/-- A sample empty profile configuration. -/
def emptyWarpConf : WarpConf :=
  { PrivateKey := [], AddrV4 := [], AddrV6 := [], PublicKey := [], Endpoint := [],
    ClientID := [], Reserved := [] }

/-- A sample receiver with the given account record, an empty profile configuration and an
empty log. -/
def sampleWGaurd (c : WGaurdConf) : WGaurd :=
  { wguardConf := c, warpConf := emptyWarpConf, warpConfFilePath := str "wgcf-profile.conf",
    log := [] }

/-- A sample valid account record with license key `license`. -/
def sampleAccount (license : GoString) : WGaurdConf :=
  { PrivateKey := str "priv-0", DeviceId := str "dev-1", AccessToken := str "tok-1",
    LicenseKey := license }

/-- Modelled from the spec: the body of `NewProfile` is not in `wgcf.go`.  The tunnel
profile is "an ini-style text document with an `[Interface]` section (PrivateKey, Address
entries for V4/V6) and a `[Peer]` section (PublicKey, Endpoint, and a comma-joined Reserved
byte list)".  The `ProfileData` that `Generate` passes has the five fields rendered here
and no Reserved list, so the text has no line for one. -/
def renderProfile (d : ProfileData) : Profile :=
  { text := str "[Interface]\nPrivateKey = " ++ d.PrivateKey
      ++ str "\nAddress = " ++ d.Address1
      ++ str "\nAddress = " ++ d.Address2
      ++ str "\n[Peer]\nPublicKey = " ++ d.PublicKey
      ++ str "\nEndpoint = " ++ d.Endpoint ++ str "\n" }

/-- A sample environment.  The remote service holds one account with license
`remoteLicense` and a device with client id `clientId`; once a rotation call has been made
it reports the license of the caller and the public key of the fresh private key
`"priv-1"`.  The bound device has no name and is Active when `activated` is set; it is
activated on request.  The tunnel profile is rendered by `renderProfile`.  The write of the
profile configuration answers `warpSave`; the other writes succeed. -/
def sampleEnv (remoteLicense clientId : GoString) (activated : Bool)
    (warpSave : Option Error) : Env where
  NewPrivateKey _ := .ok (str "priv-1")
  Public k := str "pub:" ++ k
  Register _ publicKey _ := .ok (sampleDevice clientId remoteLicense publicKey)
  GetSourceDevice log ctx :=
    if log.any Event.isRotation then
      .ok (sampleDevice clientId ctx.LicenseKey (str "pub:priv-1"))
    else .ok (sampleDevice clientId remoteLicense (str "pub:priv-0"))
  GetSourceBoundDevice _ _ := .ok { Name := none, Active := activated }
  SetDeviceName _ _ deviceName := .ok { Name := some deviceName, Active := false }
  UpdateSourceBoundDeviceActive _ _ active := .ok { Name := some (str "pc"), Active := active }
  UpdateLicenseKey _ _ _ := none
  GetAccount log ctx :=
    .ok { License := if log.any Event.isRotation then ctx.LicenseKey else remoteLicense }
  SaveWGaurdConf _ _ := none
  SaveWarpConf _ _ := warpSave
  NewProfile d := .ok (renderProfile d)
  SaveProfile _ _ _ := none

/-- A sample environment that answers like `sampleEnv remoteLicense [] false none` except
that the device re-fetched after a rotation call carries the account license `"lic-STALE"`
and that every write of the account record fails with "disk full". -/
def inconsistentEnv (remoteLicense : GoString) : Env :=
  { sampleEnv remoteLicense [] false none with
    GetSourceDevice := fun log _ =>
      if log.any Event.isRotation then
        .ok (sampleDevice [] (str "lic-STALE") (str "pub:priv-1"))
      else .ok (sampleDevice [] remoteLicense (str "pub:priv-0"))
    SaveWGaurdConf := fun _ _ => some "disk full" }

/-- The account licenses fetched among `evs`, oldest first: the license of the account
carried by each device that `GetSourceDevice` returned and of each account that
`GetAccount` returned. -/
def fetchedLicenses (evs : List Event) : List GoString :=
  evs.filterMap (fun e => match e with
    | .GetSourceDevice _ (.ok d) => some d.Account.License
    | .GetAccount _ (.ok a) => some a.License
    | _ => none)

/-- The events of `after` that are not yet in the log of `before`. -/
def newEvents (before after : WGaurd) : List Event :=
  after.log.drop before.log.length

/-- The devices that the calls `GetSourceDevice` among `evs` returned, oldest first. -/
def fetchedDevices (evs : List Event) : List Device :=
  evs.filterMap (fun e => match e with
    | .GetSourceDevice _ (.ok d) => some d
    | _ => none)

/-- The accounts that the calls `GetAccount` among `evs` returned, oldest first. -/
def fetchedAccounts (evs : List Event) : List Account :=
  evs.filterMap (fun e => match e with
    | .GetAccount _ (.ok a) => some a
    | _ => none)

/-- The public keys passed to the rotation calls among `evs`, oldest first. -/
def rotationKeys (evs : List Event) : List GoString :=
  evs.filterMap (fun e => match e with
    | .UpdateLicenseKey _ publicKey _ => some publicKey
    | _ => none)

/-- The writes of the account record among `evs`, oldest first: the record handed to
`Save` and the answer of the write (`none` when it succeeded). -/
def accountWrites (evs : List Event) : List (WGaurdConf × Option Error) :=
  evs.filterMap (fun e => match e with
    | .SaveWGaurdConf c err => some (c, err)
    | _ => none)

/-- The tunnel profiles written among `evs` (writes that succeeded), oldest first. -/
def writtenProfiles (evs : List Event) : List Profile :=
  evs.filterMap (fun e => match e with
    | .SaveProfile profile _ none => some profile
    | _ => none)

/-- Whether an event is one of the three calls about the bound device. -/
def Event.isBoundDeviceCall : Event → Bool
  | .GetSourceBoundDevice _ _ => true
  | .SetDeviceName _ _ _ => true
  | .UpdateSourceBoundDeviceActive _ _ _ => true
  | _ => false

/-- Whether the call answered with an error. -/
def Event.failed : Event → Bool
  | .NewPrivateKey (.err _) => true
  | .Register _ _ (.err _) => true
  | .GetSourceDevice _ (.err _) => true
  | .GetSourceBoundDevice _ (.err _) => true
  | .SetDeviceName _ _ (.err _) => true
  | .UpdateSourceBoundDeviceActive _ _ (.err _) => true
  | .UpdateLicenseKey _ _ (some _) => true
  | .GetAccount _ (.err _) => true
  | .SaveWGaurdConf _ (some _) => true
  | .SaveWarpConf _ (some _) => true
  | .SaveProfile _ _ (some _) => true
  | _ => false

/-- Whether the event is a call to the remote registration service that answered with an
error. -/
def Event.remoteFailed (e : Event) : Bool :=
  e.isRemote && e.failed

/-! ## Lemmas on the decoding pipeline -/

/-- Every byte of a decoded quantum is below 256. -/
theorem quantumBytes_lt (dbuf : List Nat) (dlen b : Nat) (h : b ∈ quantumBytes dbuf dlen) :
    b < 256 := by
  unfold quantumBytes at h
  have h2 := List.mem_of_mem_take h
  simp only [List.mem_cons, List.mem_singleton, List.not_mem_nil, or_false] at h2
  rcases h2 with h2 | h2 | h2 <;> subst h2 <;> exact Nat.mod_lt _ (by decide)

/-- Every byte the base64 decoder returns is below 256. -/
theorem decodeFrom_lt (s : GoString) :
    ∀ (dbuf out : List Nat), decodeFrom s dbuf = some out → ∀ b ∈ out, b < 256 := by
  induction s with
  | nil =>
    intro dbuf out h b hb
    unfold decodeFrom at h
    split at h
    · cases h; cases hb
    · cases h
  | cons c cs ih =>
    intro dbuf out h b hb
    unfold decodeFrom at h
    split at h
    · split at h
      · cases hd : decodeFrom cs [] with
        | none => rw [hd] at h; cases h
        | some o =>
          rw [hd] at h
          simp only [Option.map_some', Option.some.injEq] at h
          subst h
          rcases List.mem_append.mp hb with hb | hb
          · exact quantumBytes_lt _ _ _ hb
          · exact ih _ _ hd b hb
      · exact ih _ _ h b hb
    · split at h
      · exact ih _ _ h b hb
      · split at h
        · cases h
        · split at h
          · cases h
          · split at h
            · split at h
              · cases h
              · split at h
                · cases h
                · split at h
                  · cases h
                  · cases h; exact quantumBytes_lt _ _ _ hb
            · split at h
              · cases h
              · cases h; exact quantumBytes_lt _ _ _ hb

set_option maxRecDepth 100000 in
/-- Parsing the two hexadecimal digits of a byte gives the byte back. -/
theorem parseInt_hex_byte :
    ∀ v < 256, (ParseInt [hextable.getD (v >>> 4) 0, hextable.getD (v &&& 0x0f) 0] 16).1
      = (v : Int) := by
  decide

/-- On the hexadecimal encoding of bytes the loop of `parseReserved` ends without panic
and returns the bytes. -/
theorem reservedLoop_encode (bs : List Nat) (h : ∀ b ∈ bs, b < 256) :
    reservedLoop (EncodeToString bs) = some (bs.map Int.ofNat) := by
  induction bs with
  | nil => rfl
  | cons b bs ih =>
    have hb : b < 256 := h b (List.mem_cons_self _ _)
    have hbs : ∀ x ∈ bs, x < 256 := fun x hx => h x (List.mem_cons_of_mem _ hx)
    have ih2 : reservedLoop (EncodeToString bs) = some (bs.map Int.ofNat) := ih hbs
    have hstep : EncodeToString (b :: bs)
        = hextable.getD (b >>> 4) 0 :: hextable.getD (b &&& 0x0f) 0 :: EncodeToString bs := by
      simp [EncodeToString, List.flatMap_cons]
    rw [hstep, reservedLoop, ih2, parseInt_hex_byte b hb]
    rfl

/-- What `parseReserved` returns differs from the receiver in `Reserved` at most: not at
all when the client id does not decode, and else `Reserved` is the decoded bytes. -/
theorem parseReserved_some (that that2 : WGaurd) (h : parseReserved that = some that2) :
    that2 = { that with warpConf :=
      { that.warpConf with Reserved := that2.warpConf.Reserved } } ∧
    (DecodeString that.warpConf.ClientID = none →
      that2.warpConf.Reserved = that.warpConf.Reserved) ∧
    (∀ decoded, DecodeString that.warpConf.ClientID = some decoded →
      that2.warpConf.Reserved = decoded.map Int.ofNat) := by
  unfold parseReserved at h
  cases hd : DecodeString that.warpConf.ClientID with
  | none =>
    simp only [hd] at h
    cases h
    exact ⟨rfl, fun _ => rfl, fun _ hx => by cases hx⟩
  | some decoded =>
    simp only [hd, reservedLoop_encode decoded (decodeFrom_lt _ _ _ hd), Option.map_some',
      Option.some.injEq] at h
    subst h
    refine ⟨rfl, fun hx => (by cases hx), fun d2 hx => ?_⟩
    cases hx
    rfl

/-! ## Lemmas on `Update` -/

/-- Calls about the bound device fetch no device or account, write no account record and
are neither a rotation nor a key generation. -/
theorem boundDeviceCalls_observed (evs : List Event)
    (h : ∀ e ∈ evs, e.isBoundDeviceCall = true) :
    fetchedDevices evs = [] ∧ fetchedAccounts evs = [] ∧ rotationKeys evs = [] ∧
    accountWrites evs = [] ∧ evs.any Event.isRotation = false ∧
    evs.any Event.isKeyGen = false := by
  induction evs with
  | nil => simp [fetchedDevices, fetchedAccounts, rotationKeys, accountWrites]
  | cons e evs ih =>
    have he := h e (List.mem_cons_self _ _)
    have ih2 := ih (fun x hx => h x (List.mem_cons_of_mem _ hx))
    simp only [fetchedDevices, fetchedAccounts, rotationKeys, accountWrites] at ih2 ⊢
    cases e <;> simp_all [Event.isBoundDeviceCall, Event.isRotation, Event.isKeyGen]

/-- The end of `Update`: one activation call is logged; success needs an Active answer,
and an answer that is not Active gives "failed activating device". -/
theorem activate_spec (env : Env) (that : WGaurd) (ctx : Context) :
    ∃ r, (activate env that ctx).1 = that.record (.UpdateSourceBoundDeviceActive ctx true r) ∧
      ((activate env that ctx).2 = Outcome.ok → ∃ bd, r = Res.ok bd ∧ bd.Active = true) ∧
      (∀ bd, r = Res.ok bd → bd.Active = false →
        (activate env that ctx).2 = Outcome.error "failed activating device") := by
  refine ⟨env.UpdateSourceBoundDeviceActive that.log ctx true, ?_⟩
  unfold activate
  simp only []
  generalize env.UpdateSourceBoundDeviceActive that.log ctx true = r
  cases r with
  | err e => simp
  | ok bd => cases hb : bd.Active <;> simp [hb]

/-- The part of `Update` after reconciliation only makes calls about the bound device and
only appends to the log; on success its last call is an activation answered Active. -/
theorem bindDevice_spec (env : Env) (that : WGaurd) (ctx : Context) (deviceName : GoString) :
    ∃ evs, (bindDevice env that ctx deviceName).1 = { that with log := that.log ++ evs } ∧
      evs ≠ [] ∧ (∀ e ∈ evs, e.isBoundDeviceCall = true) ∧
      ((bindDevice env that ctx deviceName).2 = Outcome.ok →
        ∃ bd, evs.getLast? = some (.UpdateSourceBoundDeviceActive ctx true (.ok bd)) ∧
          bd.Active = true) ∧
      (∀ ctx2 bd, evs.getLast? = some (.UpdateSourceBoundDeviceActive ctx2 true (.ok bd)) →
        bd.Active = false →
        (bindDevice env that ctx deviceName).2 = Outcome.error "failed activating device") := by
  unfold bindDevice
  simp only []
  generalize env.GetSourceBoundDevice that.log ctx = r1
  cases r1 with
  | err e =>
    exact ⟨[_], rfl, by simp, by simp [Event.isBoundDeviceCall], by simp, by simp⟩
  | ok boundDevice =>
    simp only []
    split
    · generalize env.SetDeviceName _ ctx deviceName = r2
      cases r2 with
      | err e =>
        exact ⟨[.GetSourceBoundDevice ctx (.ok boundDevice),
            .SetDeviceName ctx deviceName (.err e)],
          by simp [WGaurd.record], by simp, by simp [Event.isBoundDeviceCall],
          by simp, by simp⟩
      | ok bd2 =>
        simp only []
        obtain ⟨r, h1, h2, h3⟩ := activate_spec env
          ((that.record (Event.GetSourceBoundDevice ctx (Res.ok boundDevice))).record
            (Event.SetDeviceName ctx deviceName (Res.ok bd2))) ctx
        refine ⟨[.GetSourceBoundDevice ctx (.ok boundDevice),
          .SetDeviceName ctx deviceName (.ok bd2),
          .UpdateSourceBoundDeviceActive ctx true r], ?_, by simp, ?_, ?_, ?_⟩
        · rw [h1]; simp [WGaurd.record]
        · simp [Event.isBoundDeviceCall]
        · intro h; simpa using h2 h
        · intro ctx2 bd hl hb
          simp at hl
          exact h3 bd hl.2 hb
    · obtain ⟨r, h1, h2, h3⟩ := activate_spec env
          (that.record (Event.GetSourceBoundDevice ctx (Res.ok boundDevice))) ctx
      refine ⟨[.GetSourceBoundDevice ctx (.ok boundDevice),
        .UpdateSourceBoundDeviceActive ctx true r], ?_, by simp, ?_, ?_, ?_⟩
      · rw [h1]; simp [WGaurd.record]
      · simp [Event.isBoundDeviceCall]
      · intro h; simpa using h2 h
      · intro ctx2 bd hl hb
        simp at hl
        exact h3 bd hl.2 hb


/-- The runs of `updateLicenseKey`: either it fails before the rotation call or on a failed
remote call, or it makes the five calls key generation, rotation, write of the account record,
`GetAccount`, `GetSourceDevice`, and then succeeds exactly when license and public key
agree, with the matching error otherwise. -/
theorem updateLicenseKey_spec (env : Env) (that : WGaurd) (ctx : Context) :
    ∃ evs c, (updateLicenseKey env that ctx).1
        = { that with wguardConf := c, log := that.log ++ evs } ∧
      evs ≠ [] ∧ (∀ e ∈ evs, e.isBoundDeviceCall = false) ∧
      ((∃ e, (updateLicenseKey env that ctx).2 = Res.err e ∧
          (evs.any Event.isRotation = false ∨ evs.any Event.remoteFailed = true)) ∨
       (∃ npk r a d,
          evs = [.NewPrivateKey (.ok npk), .UpdateLicenseKey ctx (env.Public npk) none,
            .SaveWGaurdConf c r, .GetAccount ctx (.ok a), .GetSourceDevice ctx (.ok d)] ∧
          c = { that.wguardConf with PrivateKey := npk } ∧
          ((a.License = ctx.LicenseKey ∧ d.Key = env.Public npk ∧
              (updateLicenseKey env that ctx).2 = Res.ok d) ∨
           (a.License ≠ ctx.LicenseKey ∧
              (updateLicenseKey env that ctx).2 = Res.err "failed to update license key") ∨
           (a.License = ctx.LicenseKey ∧ d.Key ≠ env.Public npk ∧
              (updateLicenseKey env that ctx).2 = Res.err "failed to update public key")))) := by
  unfold updateLicenseKey
  simp only []
  generalize env.NewPrivateKey that.log = r1
  cases r1 with
  | err e =>
    exact ⟨[.NewPrivateKey (.err e)], that.wguardConf, rfl, by simp,
      by simp [Event.isBoundDeviceCall], Or.inl ⟨e, rfl, Or.inl (by simp [Event.isRotation])⟩⟩
  | ok npk =>
    simp only []
    generalize env.UpdateLicenseKey _ ctx (env.Public npk) = r2
    cases r2 with
    | some e =>
      exact ⟨[.NewPrivateKey (.ok npk), .UpdateLicenseKey ctx (env.Public npk) (some e)],
        that.wguardConf, by simp [WGaurd.record], by simp,
        by simp [Event.isBoundDeviceCall], Or.inl ⟨e, rfl,
            Or.inr (by simp [Event.remoteFailed, Event.isRemote, Event.failed])⟩⟩
    | none =>
      simp only [WGaurd.saveWGaurdConf, WGaurd.record]
      generalize env.SaveWGaurdConf _ _ = r3
      generalize env.GetAccount _ ctx = r4
      cases r4 with
      | err e =>
        exact ⟨[.NewPrivateKey (.ok npk), .UpdateLicenseKey ctx (env.Public npk) none,
            .SaveWGaurdConf { that.wguardConf with PrivateKey := npk } r3,
            .GetAccount ctx (.err e)],
          { that.wguardConf with PrivateKey := npk }, by simp, by simp,
          by simp [Event.isBoundDeviceCall], Or.inl ⟨e, rfl,
            Or.inr (by simp [Event.remoteFailed, Event.isRemote, Event.failed])⟩⟩
      | ok a =>
        simp only []
        generalize env.GetSourceDevice _ ctx = r5
        cases r5 with
        | err e =>
          exact ⟨[.NewPrivateKey (.ok npk), .UpdateLicenseKey ctx (env.Public npk) none,
              .SaveWGaurdConf { that.wguardConf with PrivateKey := npk } r3,
              .GetAccount ctx (.ok a), .GetSourceDevice ctx (.err e)],
            { that.wguardConf with PrivateKey := npk }, by simp, by simp,
            by simp [Event.isBoundDeviceCall], Or.inl ⟨e, rfl,
            Or.inr (by simp [Event.remoteFailed, Event.isRemote, Event.failed])⟩⟩
        | ok d =>
          refine ⟨[.NewPrivateKey (.ok npk), .UpdateLicenseKey ctx (env.Public npk) none,
              .SaveWGaurdConf { that.wguardConf with PrivateKey := npk } r3,
              .GetAccount ctx (.ok a), .GetSourceDevice ctx (.ok d)],
            { that.wguardConf with PrivateKey := npk }, ?_, by simp,
            by simp [Event.isBoundDeviceCall], Or.inr ⟨npk, r3, a, d, rfl, rfl, ?_⟩⟩
          · simp only []
            split
            · simp
            · split <;> simp
          · simp only []
            by_cases h1 : a.License = ctx.LicenseKey
            · by_cases h2 : d.Key = env.Public npk
              · simp [h1, h2]
              · simp [h1, h2]
            · simp [h1]


/-- Fetched devices of a concatenation. -/
theorem fetchedDevices_append (l₁ l₂ : List Event) :
    fetchedDevices (l₁ ++ l₂) = fetchedDevices l₁ ++ fetchedDevices l₂ := by
  simp [fetchedDevices, List.filterMap_append]

/-- Fetched accounts of a concatenation. -/
theorem fetchedAccounts_append (l₁ l₂ : List Event) :
    fetchedAccounts (l₁ ++ l₂) = fetchedAccounts l₁ ++ fetchedAccounts l₂ := by
  simp [fetchedAccounts, List.filterMap_append]

/-- Rotation keys of a concatenation. -/
theorem rotationKeys_append (l₁ l₂ : List Event) :
    rotationKeys (l₁ ++ l₂) = rotationKeys l₁ ++ rotationKeys l₂ := by
  simp [rotationKeys, List.filterMap_append]

/-- Writes of the account record of a concatenation. -/
theorem accountWrites_append (l₁ l₂ : List Event) :
    accountWrites (l₁ ++ l₂) = accountWrites l₁ ++ accountWrites l₂ := by
  simp [accountWrites, List.filterMap_append]

/-! ## Lemmas on `Generate` -/

/-- The text of a rendered tunnel profile contains the private key it was given. -/
theorem renderProfile_contains (d : ProfileData) :
    ∃ before after, (renderProfile d).text = before ++ d.PrivateKey ++ after :=
  ⟨str "[Interface]\nPrivateKey = ",
   str "\nAddress = " ++ d.Address1 ++ str "\nAddress = " ++ d.Address2
     ++ str "\n[Peer]\nPublicKey = " ++ d.PublicKey ++ str "\nEndpoint = " ++ d.Endpoint
     ++ str "\n",
   by simp only [renderProfile, List.append_assoc]⟩

/-- What `Generate` returns does not depend on the answers of the warp-config write. -/
theorem Generate_outcome_SaveWarpConf (env : Env) (that : WGaurd)
    (f : List Event → WarpConf → Option Error) :
    (Generate { env with SaveWarpConf := f } that).2 = (Generate env that).2 := by
  unfold Generate
  simp only [WGaurd.record]
  split
  · rfl
  · generalize env.GetSourceDevice _ _ = r1
    cases r1 with
    | err e => rfl
    | ok thisDevice =>
      simp only []
      generalize env.GetSourceBoundDevice _ _ = r2
      cases r2 with
      | err e => rfl
      | ok bd =>
        simp only []
        cases thisDevice.Config.Peers with
        | nil => rfl
        | cons peer0 rest =>
          simp only []
          generalize env.NewProfile _ = r3
          cases r3 with
          | err e => rfl
          | ok profile =>
            simp only []
            generalize env.SaveProfile _ _ _ = r4
            cases r4 with
            | some e => rfl
            | none =>
              simp only []
              split <;> rfl

/-! ## Properties of the specification -/

/-- C1. For every ClientID on which `base64.StdEncoding.DecodeString` returns no error,
with `decoded` the bytes it returns: every decoded byte is between 0 and 255,
`parseReserved` returns (no panic) and sets `Reserved` to exactly the values of the
decoded bytes, in order, every other field untouched, so that `Reserved` is as long as
`decoded`; and ClientID `"AAEC"` yields `[0,1,2]`, ClientID `"/w=="` yields `[255]`. -/
theorem parseReserved_decoded (that : WGaurd) (decoded : List Nat)
    (h : DecodeString that.warpConf.ClientID = some decoded) :
    (∀ b ∈ decoded, b < 256) ∧
    parseReserved that = some { that with warpConf :=
      { that.warpConf with Reserved := decoded.map Int.ofNat } } ∧
    (∀ that2, parseReserved that = some that2 →
      that2.warpConf.Reserved.length = decoded.length) ∧
    (that.warpConf.ClientID = str "AAEC" →
      ∀ that2, parseReserved that = some that2 → that2.warpConf.Reserved = [0, 1, 2]) ∧
    (that.warpConf.ClientID = str "/w==" →
      ∀ that2, parseReserved that = some that2 → that2.warpConf.Reserved = [255]) := by
  have hlt : ∀ b ∈ decoded, b < 256 := decodeFrom_lt _ _ _ h
  have hp : parseReserved that = some { that with warpConf :=
      { that.warpConf with Reserved := decoded.map Int.ofNat } } := by
    simp only [parseReserved, h, reservedLoop_encode decoded hlt, Option.map_some']
  refine ⟨hlt, hp, ?_, ?_, ?_⟩
  · intro that2 h2
    rw [hp] at h2
    cases h2
    simp
  · intro hc that2 h2
    rw [hc] at h
    have hd : decoded = [0, 1, 2] := by
      have : DecodeString (str "AAEC") = some [0, 1, 2] := by decide
      rw [this] at h
      exact (Option.some.inj h).symm
    rw [hp] at h2
    cases h2
    subst hd
    rfl
  · intro hc that2 h2
    rw [hc] at h
    have hd : decoded = [255] := by
      have : DecodeString (str "/w==") = some [255] := by decide
      rw [this] at h
      exact (Option.some.inj h).symm
    rw [hp] at h2
    cases h2
    subst hd
    rfl

/-- Witness of C1: the two client ids of the claim, in a receiver whose `Reserved` holds a
stale value. -/
theorem parseReserved_decoded_witness :
    (parseReserved { sampleWGaurd (sampleAccount []) with
        warpConf := { emptyWarpConf with ClientID := str "AAEC", Reserved := [9] } }).map
      (fun w => w.warpConf.Reserved) = some [0, 1, 2] ∧
    (parseReserved { sampleWGaurd (sampleAccount []) with
        warpConf := { emptyWarpConf with ClientID := str "/w==", Reserved := [9] } }).map
      (fun w => w.warpConf.Reserved) = some [255] := by
  constructor
  · rw [(parseReserved_decoded { sampleWGaurd (sampleAccount []) with
        warpConf := { emptyWarpConf with ClientID := str "AAEC", Reserved := [9] } }
        [0, 1, 2] (by decide)).2.1]
    rfl
  · rw [(parseReserved_decoded { sampleWGaurd (sampleAccount []) with
        warpConf := { emptyWarpConf with ClientID := str "/w==", Reserved := [9] } }
        [255] (by decide)).2.1]
    rfl

/-- C2. `IsAccountValid` is true exactly when DeviceId, AccessToken and PrivateKey are all
non-empty, and two receivers whose account records differ at most in LicenseKey get the
same answer. -/
theorem IsAccountValid_iff :
    (∀ that : WGaurd, IsAccountValid that = true ↔
      (that.wguardConf.DeviceId ≠ [] ∧ that.wguardConf.AccessToken ≠ [] ∧
        that.wguardConf.PrivateKey ≠ [])) ∧
    (∀ (that : WGaurd) (licenseKey : GoString),
      IsAccountValid { that with wguardConf :=
        { that.wguardConf with LicenseKey := licenseKey } } = IsAccountValid that) := by
  constructor
  · intro that
    unfold IsAccountValid
    split <;> simp_all
    tauto
  · intro that licenseKey
    rfl

/-- Counterexample to C3 as stated: the record `{PrivateKey "priv-0", DeviceId "dev-1",
AccessToken "tok-1", LicenseKey ""}` is valid, yet `Register` generates a key, calls the
remote service, replaces the private key and writes the record. -/
theorem Register_valid_empty_license :
    IsAccountValid (sampleWGaurd (sampleAccount [])) = true ∧
    (Register (sampleEnv (str "lic-r") [] false none) (sampleWGaurd (sampleAccount []))).2
      = Outcome.ok ∧
    (Register (sampleEnv (str "lic-r") [] false none)
      (sampleWGaurd (sampleAccount []))).1.wguardConf
      = { PrivateKey := str "priv-1", DeviceId := str "dev-1", AccessToken := str "tok-1",
          LicenseKey := str "lic-r" } ∧
    ((Register (sampleEnv (str "lic-r") [] false none)
      (sampleWGaurd (sampleAccount []))).1.log.map
        (fun e => (e.isKeyGen, e.isRemote, e.isWrite)))
      = [(true, false, false), (false, true, false), (false, false, true),
         (false, true, false), (false, true, false), (false, true, false)] := by
  decide

/-- C3, amended. For every account record whose DeviceId, AccessToken and LicenseKey are
all non-empty (whatever its PrivateKey), `Register` is a no-op: it returns no error and
leaves the receiver as it was, account record and log included, so that no key is
generated and no remote call is made. -/
theorem Register_existing (env : Env) (that : WGaurd)
    (h : that.wguardConf.DeviceId ≠ [] ∧ that.wguardConf.AccessToken ≠ [] ∧
      that.wguardConf.LicenseKey ≠ []) :
    Register env that = (that, Outcome.ok) := by
  unfold Register
  rw [if_pos h]

/-- Witness of C3 amended: a registered record, and one with an empty private key. -/
theorem Register_existing_witness :
    Register (sampleEnv (str "lic-r") [] false none) (sampleWGaurd (sampleAccount (str "lic-0")))
      = (sampleWGaurd (sampleAccount (str "lic-0")), Outcome.ok) ∧
    Register (sampleEnv (str "lic-r") [] false none)
        (sampleWGaurd { sampleAccount (str "lic-0") with PrivateKey := [] })
      = (sampleWGaurd { sampleAccount (str "lic-0") with PrivateKey := [] }, Outcome.ok) :=
  ⟨Register_existing _ _ (by decide), Register_existing _ _ (by decide)⟩

/-- C4. For every valid account record and every device name, `Update` with an empty
license key returns no error and leaves the receiver as it was: every field of the account
record, the profile configuration and the log, so that nothing is written and no remote
call (in particular no rotation call) is made. -/
theorem Update_empty_licenseKey (env : Env) (that : WGaurd) (deviceName : GoString)
    (h : IsAccountValid that = true) :
    Update env that [] deviceName = (that, Outcome.ok) := by
  unfold Update
  simp [h]

/-- Witness of C4. -/
theorem Update_empty_licenseKey_witness :
    Update (sampleEnv (str "lic-r") [] false none) (sampleWGaurd (sampleAccount (str "lic-0"))) []
        (str "laptop")
      = (sampleWGaurd (sampleAccount (str "lic-0")), Outcome.ok) :=
  Update_empty_licenseKey _ _ _ (by decide)

/-- C10. For every account record that is not valid, `Update` (with any license key and
device name), `Generate` and `Status` each return the error "invalid account" and leave
the receiver as it was: account record, profile configuration and log, so that no remote
call is made.  And for every account, valid ones included, `Status` leaves the account
record and the profile configuration as they were, whatever the environment answers. -/
theorem invalid_account_rejected (env : Env) (that : WGaurd) (licenseKey deviceName : GoString)
    (h : IsAccountValid that = false) :
    Update env that licenseKey deviceName = (that, Outcome.error "invalid account") ∧
    Generate env that = (that, Outcome.error "invalid account") ∧
    Status env that = (that, Outcome.error "invalid account") ∧
    (∀ (env2 : Env) (that2 : WGaurd), IsAccountValid that2 = true →
      (Status env2 that2).1.wguardConf = that2.wguardConf ∧
      (Status env2 that2).1.warpConf = that2.warpConf) := by
  refine ⟨?_, ?_, ?_, ?_⟩
  · unfold Update; simp [h]
  · unfold Generate; simp [h]
  · unfold Status; simp [h]
  · intro env2 that2 _
    unfold Status
    simp only [WGaurd.record]
    repeat' split
    all_goals exact ⟨rfl, rfl⟩

/-- Witness of C10: a record without access token. -/
theorem invalid_account_rejected_witness :
    Update (sampleEnv (str "lic-r") [] false none)
        (sampleWGaurd { sampleAccount (str "lic-0") with AccessToken := [] })
        (str "lic-1") (str "laptop")
      = (sampleWGaurd { sampleAccount (str "lic-0") with AccessToken := [] },
          Outcome.error "invalid account") :=
  (invalid_account_rejected _ _ _ _ (by decide)).1

/-- C5. For every valid account record and every non-empty license key `licenseKey`: if
the device that `Update` fetches right after storing `licenseKey` as the local LicenseKey
reports an account license equal to `licenseKey`, then none of the calls `Update` makes is
a key generation or a rotation call, and the local PrivateKey is left as it was. -/
theorem Update_license_up_to_date (env : Env) (that : WGaurd)
    (licenseKey deviceName : GoString) (thisDevice : Device)
    (hv : IsAccountValid that = true) (hk : licenseKey ≠ [])
    (hfetch : env.GetSourceDevice (that.storeLicenseKey env licenseKey).log
      (CreateContext (that.storeLicenseKey env licenseKey).wguardConf) = Res.ok thisDevice)
    (hlic : thisDevice.Account.License = licenseKey) :
    (that.storeLicenseKey env licenseKey).wguardConf.LicenseKey = licenseKey ∧
    (∀ e ∈ newEvents that (Update env that licenseKey deviceName).1,
      e.isKeyGen = false ∧ e.isRotation = false) ∧
    (Update env that licenseKey deviceName).1.wguardConf.PrivateKey
      = that.wguardConf.PrivateKey := by
  refine ⟨rfl, ?_⟩
  have hctx : (CreateContext (that.storeLicenseKey env licenseKey).wguardConf).LicenseKey
      = licenseKey := rfl
  unfold Update
  simp only [hv, hk, hfetch, ensureLicenseKeyUpToDate, hctx, hlic]
  simp only [WGaurd.storeLicenseKey, WGaurd.saveWGaurdConf, WGaurd.record, newEvents,
    bindDevice, activate]
  repeat' split
  all_goals simp_all [Event.isKeyGen, Event.isRotation]

/-- Witness of C5: the remote account already has the license `"lic-1"`. -/
theorem Update_license_up_to_date_witness :
    (∀ e ∈ newEvents (sampleWGaurd (sampleAccount (str "lic-0")))
        (Update (sampleEnv (str "lic-1") [] false none) (sampleWGaurd (sampleAccount (str "lic-0")))
          (str "lic-1") (str "laptop")).1,
      e.isKeyGen = false ∧ e.isRotation = false) ∧
    (Update (sampleEnv (str "lic-1") [] false none) (sampleWGaurd (sampleAccount (str "lic-0")))
      (str "lic-1") (str "laptop")).1.wguardConf.PrivateKey = str "priv-0" :=
  (Update_license_up_to_date (sampleEnv (str "lic-1") [] false none)
    (sampleWGaurd (sampleAccount (str "lic-0"))) (str "lic-1") (str "laptop")
    (sampleDevice [] (str "lic-1") (str "pub:priv-0")) (by decide) (by decide) (by decide)
    (by decide)).2

/-- Counterexample to C6 as stated: the remote account holds the license `"lic-r"`, so
`Update` with `"lic-1"` rotates the key.  Every remote call succeeds and `Update` returns
success, yet the license fetched last, the one carried by the re-fetched device, is
`"lic-STALE"` and not `"lic-1"`, and both writes of the account record failed, so that no
PrivateKey was newly persisted. -/
theorem Update_success_unreconciled :
    (Update (inconsistentEnv (str "lic-r")) (sampleWGaurd (sampleAccount (str "lic-0")))
      (str "lic-1") (str "laptop")).2 = Outcome.ok ∧
    (newEvents (sampleWGaurd (sampleAccount (str "lic-0")))
      (Update (inconsistentEnv (str "lic-r")) (sampleWGaurd (sampleAccount (str "lic-0")))
        (str "lic-1") (str "laptop")).1).any Event.isRotation = true ∧
    (newEvents (sampleWGaurd (sampleAccount (str "lic-0")))
      (Update (inconsistentEnv (str "lic-r")) (sampleWGaurd (sampleAccount (str "lic-0")))
        (str "lic-1") (str "laptop")).1).any Event.remoteFailed = false ∧
    fetchedLicenses (newEvents (sampleWGaurd (sampleAccount (str "lic-0")))
      (Update (inconsistentEnv (str "lic-r")) (sampleWGaurd (sampleAccount (str "lic-0")))
        (str "lic-1") (str "laptop")).1)
      = [str "lic-r", str "lic-1", str "lic-STALE"] ∧
    (accountWrites (newEvents (sampleWGaurd (sampleAccount (str "lic-0")))
      (Update (inconsistentEnv (str "lic-r")) (sampleWGaurd (sampleAccount (str "lic-0")))
        (str "lic-1") (str "laptop")).1)).map Prod.snd
      = [some "disk full", some "disk full"] ∧
    (Update (inconsistentEnv (str "lic-r")) (sampleWGaurd (sampleAccount (str "lic-0")))
      (str "lic-1") (str "laptop")).1.wguardConf.PrivateKey = str "priv-1" := by
  decide

/-- C6, amended. Let `Update` run with a non-empty license key `licenseKey` and end in
`that2` with `outcome`, and let `evs` be the calls it made.

If `outcome` is success, then: the local LicenseKey is `licenseKey`; when no rotation call
was made, the device last fetched carries the account license `licenseKey`; when a rotation
call was made, the account last fetched by `GetAccount` (the re-fetched account) has
license `licenseKey`, the last write of the account record was handed the local record
(its answer `r` is not looked at: the record is persisted when `r` is `none`), and the
device last fetched (the re-fetched device) has the public key of the local PrivateKey;
and the last call is the activation, answered by a bound device that is Active.  The
license carried by the re-fetched device is not compared.

Conversely, when a rotation call was made and no remote call failed, with `a` the
re-fetched account, `d` the re-fetched device and `pk` the public key sent:
`a.License ≠ licenseKey` makes `Update` fail with "failed to update license key", and
otherwise `d.Key ≠ pk` makes it fail with "failed to update public key"; and whenever the
last call is an activation answered by a bound device that is not Active, `Update` fails
with "failed activating device". -/
theorem Update_reconciles (env : Env) (that that2 : WGaurd) (licenseKey deviceName : GoString)
    (outcome : Outcome) (hk : licenseKey ≠ [])
    (hrun : Update env that licenseKey deviceName = (that2, outcome)) :
    (outcome = Outcome.ok →
      that2.wguardConf.LicenseKey = licenseKey ∧
      ((newEvents that that2).any Event.isRotation = false →
        ∃ d, (fetchedDevices (newEvents that that2)).getLast? = some d ∧
          d.Account.License = licenseKey) ∧
      ((newEvents that that2).any Event.isRotation = true →
        ∃ a d r, (fetchedAccounts (newEvents that that2)).getLast? = some a ∧
          a.License = licenseKey ∧
          (accountWrites (newEvents that that2)).getLast? = some (that2.wguardConf, r) ∧
          (fetchedDevices (newEvents that that2)).getLast? = some d ∧
          d.Key = env.Public that2.wguardConf.PrivateKey) ∧
      ∃ ctx bd, (newEvents that that2).getLast?
          = some (Event.UpdateSourceBoundDeviceActive ctx true (Res.ok bd)) ∧
        bd.Active = true) ∧
    ((newEvents that that2).any Event.isRotation = true →
      (newEvents that that2).any Event.remoteFailed = false →
      ∀ a d pk, (fetchedAccounts (newEvents that that2)).getLast? = some a →
        (fetchedDevices (newEvents that that2)).getLast? = some d →
        (rotationKeys (newEvents that that2)).getLast? = some pk →
        (a.License ≠ licenseKey → outcome = Outcome.error "failed to update license key") ∧
        (a.License = licenseKey → d.Key ≠ pk →
          outcome = Outcome.error "failed to update public key")) ∧
    (∀ ctx bd, (newEvents that that2).getLast?
        = some (Event.UpdateSourceBoundDeviceActive ctx true (Res.ok bd)) →
      bd.Active = false → outcome = Outcome.error "failed activating device") := by
  have e1 : that2 = (Update env that licenseKey deviceName).1 := by rw [hrun]
  have e2 : outcome = (Update env that licenseKey deviceName).2 := by rw [hrun]
  subst e1 e2
  clear hrun
  by_cases hv : IsAccountValid that = true
  swap
  · have hu : Update env that licenseKey deviceName
        = (that, Outcome.error "invalid account") := by
      unfold Update; simp [hv]
    simp [hu, newEvents]
  have hS1 : (that.storeLicenseKey env licenseKey).wguardConf
      = { that.wguardConf with LicenseKey := licenseKey } := rfl
  have hS2 : ∃ r0, (that.storeLicenseKey env licenseKey).log
      = that.log ++ [.SaveWGaurdConf { that.wguardConf with LicenseKey := licenseKey } r0] :=
    ⟨_, rfl⟩
  obtain ⟨r0, hS2⟩ := hS2
  unfold Update
  simp only [hv, hk, Bool.not_true, Bool.false_eq_true, if_false]
  generalize WGaurd.storeLicenseKey env that licenseKey = S at hS1 hS2 ⊢
  have hctx : (CreateContext S.wguardConf).LicenseKey = licenseKey := by rw [hS1]; rfl
  generalize CreateContext S.wguardConf = ctx at hctx ⊢
  generalize env.GetSourceDevice S.log ctx = r1
  cases r1 with
  | err e =>
    simp [newEvents, WGaurd.record, hS2, Event.isRotation]
  | ok d0 =>
    simp only [ensureLicenseKeyUpToDate]
    have hT : (S.record (.GetSourceDevice ctx (.ok d0))).log
        = that.log ++ [.SaveWGaurdConf { that.wguardConf with LicenseKey := licenseKey } r0,
            .GetSourceDevice ctx (.ok d0)] := by
      simp [WGaurd.record, hS2]
    have hTc : (S.record (.GetSourceDevice ctx (.ok d0))).wguardConf
        = { that.wguardConf with LicenseKey := licenseKey } := hS1
    generalize S.record (.GetSourceDevice ctx (.ok d0)) = T at hT hTc ⊢
    by_cases hl : d0.Account.License = ctx.LicenseKey
    · simp only [hl, ne_eq, not_true_eq_false, if_false]
      obtain ⟨evsB, hB1, hB2, hB3, hB4, hB5⟩ := bindDevice_spec env T ctx deviceName
      obtain ⟨o1, o2, o3, o4, o5, o6⟩ := boundDeviceCalls_observed evsB hB3
      generalize bindDevice env T ctx deviceName = p at hB1 hB4 hB5 ⊢
      obtain ⟨that2, outcome⟩ := p
      simp only at hB1 hB4 hB5 ⊢
      subst hB1
      have hnew : newEvents that { T with log := T.log ++ evsB }
          = [.SaveWGaurdConf { that.wguardConf with LicenseKey := licenseKey } r0,
            .GetSourceDevice ctx (.ok d0)] ++ evsB := by
        simp [newEvents, hT]
      rw [hnew]
      have hlast : ∀ pre : List Event, (pre ++ evsB).getLast? = evsB.getLast? :=
        fun pre => List.getLast?_append_of_ne_nil pre hB2
      simp only [fetchedDevices_append, fetchedAccounts_append, rotationKeys_append,
        accountWrites_append, List.any_append, o1, o2, o3, o4, o5, hlast, hTc]
      simp [fetchedDevices, fetchedAccounts, rotationKeys, accountWrites, Event.isRotation,
        hl, hctx]
      exact ⟨fun h => ⟨ctx, hB4 h⟩, hB5⟩
    · simp only [hl, ne_eq, not_false_eq_true, if_true]
      obtain ⟨evsR, c, hR1, hR2, hR3, hR4⟩ := updateLicenseKey_spec env T ctx
      generalize updateLicenseKey env T ctx = q at hR1 hR4 ⊢
      obtain ⟨T2, res⟩ := q
      simp only at hR1 hR4 ⊢
      have hT2l : T2.log = that.log ++
          ([.SaveWGaurdConf { that.wguardConf with LicenseKey := licenseKey } r0,
            .GetSourceDevice ctx (.ok d0)] ++ evsR) := by
        rw [hR1]; simp [hT]
      have hT2c : T2.wguardConf = c := by rw [hR1]
      clear hR1
      have hnl : ∀ (ctx2 : Context) (bd : BoundDevice), evsR.getLast?
          ≠ some (.UpdateSourceBoundDeviceActive ctx2 true (.ok bd)) := by
        intro ctx2 bd hlast
        have := hR3 _ (List.mem_of_getLast?_eq_some hlast)
        simp [Event.isBoundDeviceCall] at this
      have hlastR : ∀ pre : List Event, (pre ++ evsR).getLast? = evsR.getLast? :=
        fun pre => List.getLast?_append_of_ne_nil pre hR2
      have hnew : newEvents that T2
          = [.SaveWGaurdConf { that.wguardConf with LicenseKey := licenseKey } r0,
            .GetSourceDevice ctx (.ok d0)] ++ evsR := by
        simp [newEvents, hT2l]
      rcases hR4 with ⟨e, rfl, hcase⟩ | ⟨npk, r, a, d, rfl, rfl, hcase⟩
      · simp only [hnew, hlastR]
        refine ⟨by simp, ?_, fun ctx2 bd h => absurd h (hnl ctx2 bd)⟩
        intro h1 h2
        exfalso
        rw [List.any_append] at h1 h2
        have p1 : [Event.SaveWGaurdConf { that.wguardConf with LicenseKey := licenseKey } r0,
            Event.GetSourceDevice ctx (.ok d0)].any Event.isRotation = false := rfl
        rw [p1, Bool.false_or] at h1
        rw [Bool.or_eq_false_iff] at h2
        rcases hcase with hc | hc
        · rw [hc] at h1; cases h1
        · rw [hc] at h2; cases h2.2
      · rcases hcase with ⟨ha, hd, rfl⟩ | ⟨ha, rfl⟩ | ⟨ha, hd, rfl⟩
        · simp only []
          obtain ⟨evsB, hB1, hB2, hB3, hB4, hB5⟩ := bindDevice_spec env T2 ctx deviceName
          obtain ⟨o1, o2, o3, o4, o5, o6⟩ := boundDeviceCalls_observed evsB hB3
          generalize bindDevice env T2 ctx deviceName = p at hB1 hB4 hB5 ⊢
          obtain ⟨that2, outcome⟩ := p
          simp only at hB1 hB4 hB5 ⊢
          subst hB1
          have hnew2 : newEvents that { T2 with log := T2.log ++ evsB }
              = [.SaveWGaurdConf { that.wguardConf with LicenseKey := licenseKey } r0,
              .GetSourceDevice ctx (.ok d0), Event.NewPrivateKey (.ok npk),
              Event.UpdateLicenseKey ctx (env.Public npk) none,
              Event.SaveWGaurdConf { T.wguardConf with PrivateKey := npk } r,
              Event.GetAccount ctx (.ok a), Event.GetSourceDevice ctx (.ok d)] ++ evsB := by
            simp [newEvents, hT2l]
          rw [hnew2]
          have hlast : ∀ pre : List Event, (pre ++ evsB).getLast? = evsB.getLast? :=
            fun pre => List.getLast?_append_of_ne_nil pre hB2
          simp only [fetchedDevices_append, fetchedAccounts_append, rotationKeys_append,
            accountWrites_append, List.any_append, o1, o2, o3, o4, o5, hlast, hT2c]
          refine ⟨?_, ?_, hB5⟩
          · intro hok
            refine ⟨by rw [hTc], by simp [Event.isRotation], ?_, ⟨ctx, hB4 hok⟩⟩
            intro _
            refine ⟨a, d, r, ?_, by rw [ha, hctx], ?_, ?_, hd⟩
            · simp [fetchedAccounts]
            · simp [accountWrites]
            · simp [fetchedDevices]
          · intro _ _ a2 d2 pk2 h1 h2 h3
            simp [fetchedDevices, fetchedAccounts, rotationKeys] at h1 h2 h3
            subst h1 h2 h3
            rw [hctx] at ha
            simp [ha, hd]
        · rw [hnew]
          refine ⟨by simp, ?_, ?_⟩
          · intro _ _ a2 d2 pk2 h1 h2 h3
            simp [fetchedDevices, fetchedAccounts, rotationKeys] at h1 h2 h3
            subst h1 h2 h3
            rw [hctx] at ha
            simp [ha]
          · intro ctx2 bd h
            simp at h
        · rw [hnew]
          refine ⟨by simp, ?_, ?_⟩
          · intro _ _ a2 d2 pk2 h1 h2 h3
            simp [fetchedDevices, fetchedAccounts, rotationKeys] at h1 h2 h3
            subst h1 h2 h3
            rw [hctx] at ha
            simp [ha]
          · intro ctx2 bd h
            simp at h

/-- Witness of C6 amended: the remote account holds another license, so that the key is
rotated. -/
theorem Update_reconciles_witness :
    (Update (sampleEnv (str "lic-r") [] false none) (sampleWGaurd (sampleAccount (str "lic-0")))
      (str "lic-1") (str "laptop")).2 = Outcome.ok ∧
    (Update (sampleEnv (str "lic-r") [] false none) (sampleWGaurd (sampleAccount (str "lic-0")))
      (str "lic-1") (str "laptop")).1.wguardConf.LicenseKey = str "lic-1" ∧
    (newEvents (sampleWGaurd (sampleAccount (str "lic-0")))
      (Update (sampleEnv (str "lic-r") [] false none) (sampleWGaurd (sampleAccount (str "lic-0")))
        (str "lic-1") (str "laptop")).1).any Event.isRotation = true :=
  ⟨by decide,
   ((Update_reconciles (sampleEnv (str "lic-r") [] false none)
      (sampleWGaurd (sampleAccount (str "lic-0"))) _ (str "lic-1") (str "laptop") _
      (by decide) rfl).1 (by decide)).1,
   by decide⟩

/-- Counterexample to C7 as stated: with ClientID `"!!!!"`, which is not valid base64, and
a prior `Reserved` of `[9]`, `parseReserved` returns with `Reserved` still `[9]`; and a
`Generate` that fetches a device with that client id succeeds and leaves `Reserved` at `[9]`
next to the new ClientID. -/
theorem parseReserved_invalid_keeps_prior :
    DecodeString (str "!!!!") = none ∧
    (parseReserved { sampleWGaurd (sampleAccount (str "lic-0")) with
        warpConf := { emptyWarpConf with ClientID := str "!!!!", Reserved := [9] } }).map
      (fun w => w.warpConf.Reserved) = some [9] ∧
    (Generate (sampleEnv (str "lic-0") (str "!!!!") false none)
      { sampleWGaurd (sampleAccount (str "lic-0")) with
        warpConf := { emptyWarpConf with Reserved := [9] } }).2 = Outcome.ok ∧
    (Generate (sampleEnv (str "lic-0") (str "!!!!") false none)
      { sampleWGaurd (sampleAccount (str "lic-0")) with
        warpConf := { emptyWarpConf with Reserved := [9] } }).1.warpConf.ClientID
      = str "!!!!" ∧
    (Generate (sampleEnv (str "lic-0") (str "!!!!") false none)
      { sampleWGaurd (sampleAccount (str "lic-0")) with
        warpConf := { emptyWarpConf with Reserved := [9] } }).1.warpConf.Reserved = [9] := by
  decide

/-- C7, amended. For every ClientID on which `base64.StdEncoding.DecodeString` returns an
error and every prior value of the profile configuration, `parseReserved` returns and
leaves the receiver as it was, `Reserved` included; and a `Generate` whose fetched device
carries that client id leaves `Reserved` at its prior value, however it ends.  So
`Reserved` is empty afterwards exactly when it was empty before. -/
theorem parseReserved_invalid_clientID (clientID : GoString)
    (h : DecodeString clientID = none) :
    (∀ that : WGaurd, that.warpConf.ClientID = clientID → parseReserved that = some that) ∧
    (∀ (env : Env) (that : WGaurd) (thisDevice : Device),
      env.GetSourceDevice that.log (CreateContext that.wguardConf) = Res.ok thisDevice →
      thisDevice.Config.ClientId = clientID →
      (Generate env that).1.warpConf.Reserved = that.warpConf.Reserved) := by
  constructor
  · intro that hc
    unfold parseReserved
    simp only [hc, h]
  · intro env that thisDevice hfetch hc
    unfold Generate
    split
    · rfl
    · simp only [hfetch, WGaurd.record]
      generalize env.GetSourceBoundDevice _ _ = r2
      cases r2 with
      | err e => rfl
      | ok bd =>
        simp only []
        cases hp : thisDevice.Config.Peers with
        | nil => rfl
        | cons peer0 rest =>
          simp only []
          generalize env.NewProfile _ = r3
          cases r3 with
          | err e => rfl
          | ok profile =>
            simp only []
            generalize env.SaveProfile _ _ _ = r4
            cases r4 with
            | some e => rfl
            | none =>
              simp only [parseReserved, hc, h, WGaurd.saveWarpConf, WGaurd.record]


/-- Witness of C7 amended. -/
theorem parseReserved_invalid_clientID_witness :
    parseReserved { sampleWGaurd (sampleAccount (str "lic-0")) with
        warpConf := { emptyWarpConf with ClientID := str "!!!!", Reserved := [9] } }
      = some { sampleWGaurd (sampleAccount (str "lic-0")) with
        warpConf := { emptyWarpConf with ClientID := str "!!!!", Reserved := [9] } } ∧
    (Generate (sampleEnv (str "lic-0") (str "!!!!") false none)
      (sampleWGaurd (sampleAccount (str "lic-0")))).1.warpConf.Reserved = [] :=
  ⟨(parseReserved_invalid_clientID (str "!!!!") (by decide)).1 _ rfl,
   (parseReserved_invalid_clientID (str "!!!!") (by decide)).2 _ _
     (sampleDevice (str "!!!!") (str "lic-0") (str "pub:priv-0")) (by decide) rfl⟩

/-- Counterexample to C8 as stated: the account is valid, both fetches succeed, the write of
the warp-config record fails with "disk full", and `Generate` returns success. -/
theorem Generate_ignores_warpConf_write :
    IsAccountValid (sampleWGaurd (sampleAccount (str "lic-0"))) = true ∧
    (Generate (sampleEnv (str "lic-0") (str "AAEC") false (some "disk full"))
      (sampleWGaurd (sampleAccount (str "lic-0")))).2 = Outcome.ok ∧
    ((Generate (sampleEnv (str "lic-0") (str "AAEC") false (some "disk full"))
      (sampleWGaurd (sampleAccount (str "lic-0")))).1.log.map Event.failed)
      = [false, false, false, true] ∧
    ((Generate (sampleEnv (str "lic-0") (str "AAEC") false (some "disk full"))
      (sampleWGaurd (sampleAccount (str "lic-0")))).1.log.getLast?.map
        (fun e => match e with
          | Event.SaveWarpConf _ err => err
          | _ => none))
      = some (some "disk full") := by
  decide

/-- C8, amended. For every valid account, with `that2` and `outcome` the end of `Generate`:
if `outcome` is success then exactly one tunnel profile was written, and that write
succeeded; if a write of the tunnel profile failed with `e`, `Generate` returns the error
`e`; and `outcome` is the same whatever the write of the warp-config record answers. -/
theorem Generate_profile_write (env : Env) (that that2 : WGaurd) (outcome : Outcome)
    (hv : IsAccountValid that = true) (hrun : Generate env that = (that2, outcome)) :
    (outcome = Outcome.ok → ∃ profile, writtenProfiles (newEvents that that2) = [profile]) ∧
    (∀ profile path e, Event.SaveProfile profile path (some e) ∈ newEvents that that2 →
      outcome = Outcome.error e) ∧
    (∀ f : List Event → WarpConf → Option Error,
      (Generate { env with SaveWarpConf := f } that).2 = outcome) := by
  have e2 : outcome = (Generate env that).2 := by rw [hrun]
  refine ⟨?_, ?_, fun f => by rw [e2]; exact Generate_outcome_SaveWarpConf env that f⟩
  all_goals
    clear e2
    unfold Generate at hrun
    simp only [hv, Bool.not_true, Bool.false_eq_true, if_false, WGaurd.record] at hrun
    generalize env.GetSourceDevice _ _ = r1 at hrun
    cases r1 with
    | err e => cases hrun; simp [newEvents, writtenProfiles]
    | ok thisDevice =>
      simp only [] at hrun
      generalize env.GetSourceBoundDevice _ _ = r2 at hrun
      cases r2 with
      | err e => cases hrun; simp [newEvents, writtenProfiles]
      | ok bd =>
        simp only [] at hrun
        cases hp : thisDevice.Config.Peers with
        | nil => rw [hp] at hrun; cases hrun; simp [newEvents, writtenProfiles]
        | cons peer0 rest =>
          rw [hp] at hrun
          simp only [] at hrun
          generalize env.NewProfile _ = r3 at hrun
          cases r3 with
          | err e => cases hrun; simp [newEvents, writtenProfiles]
          | ok profile =>
            simp only [] at hrun
            generalize env.SaveProfile _ _ _ = r4 at hrun
            cases r4 with
            | some e =>
              cases hrun
              simp [newEvents, writtenProfiles] <;> (intro _ _ _ _ _ h; exact h.symm)
            | none =>
              simp only [] at hrun
              split at hrun
              · cases hrun; simp [newEvents, writtenProfiles]
              · rename_i W hW
                obtain ⟨h1, _, _⟩ := parseReserved_some _ _ hW
                cases hrun
                have hWlog : W.log = that.log ++
                    [Event.GetSourceDevice (CreateContext that.wguardConf) (.ok thisDevice),
                     Event.GetSourceBoundDevice (CreateContext that.wguardConf) (.ok bd),
                     Event.SaveProfile profile that.warpConfFilePath none] := by
                  rw [h1]; simp
                simp [newEvents, WGaurd.saveWarpConf, WGaurd.record, hWlog, writtenProfiles]


/-- Witness of C8 amended. -/
theorem Generate_profile_write_witness :
    ∃ profile, writtenProfiles (newEvents (sampleWGaurd (sampleAccount (str "lic-0")))
      (Generate (sampleEnv (str "lic-0") (str "AAEC") false (some "disk full"))
        (sampleWGaurd (sampleAccount (str "lic-0")))).1) = [profile] :=
  (Generate_profile_write (sampleEnv (str "lic-0") (str "AAEC") false (some "disk full"))
    (sampleWGaurd (sampleAccount (str "lic-0"))) _ _ (by decide) rfl).1 (by decide)

/-- Counterexample to C9 as stated: for the same valid account, whose bound device is
Active, a remote device with client id `"AAEC"` (three decoded bytes) and one with client
id `"/w=="` (one decoded byte) make `Generate` succeed and write the very same tunnel
profile, while the `Reserved` lists it stores in the profile configuration are `[0,1,2]`
and `[255]`: the argument of `NewProfile` has no field that depends on the client id.
And when the write of the profile configuration fails with "disk full", `Generate` still
returns success, although nothing was persisted by that write. -/
theorem Generate_profile_without_reserved :
    (Generate (sampleEnv (str "lic-0") (str "AAEC") true none)
      (sampleWGaurd (sampleAccount (str "lic-0")))).2 = Outcome.ok ∧
    (Generate (sampleEnv (str "lic-0") (str "/w==") true none)
      (sampleWGaurd (sampleAccount (str "lic-0")))).2 = Outcome.ok ∧
    (Generate (sampleEnv (str "lic-0") (str "AAEC") true none)
      (sampleWGaurd (sampleAccount (str "lic-0")))).1.log.get? 1
      = some (Event.GetSourceBoundDevice (CreateContext (sampleAccount (str "lic-0")))
          (Res.ok { Name := none, Active := true })) ∧
    (Generate (sampleEnv (str "lic-0") (str "/w==") true none)
      (sampleWGaurd (sampleAccount (str "lic-0")))).1.log.get? 1
      = some (Event.GetSourceBoundDevice (CreateContext (sampleAccount (str "lic-0")))
          (Res.ok { Name := none, Active := true })) ∧
    (DecodeString (str "AAEC")).map List.length = some 3 ∧
    (DecodeString (str "/w==")).map List.length = some 1 ∧
    (writtenProfiles (Generate (sampleEnv (str "lic-0") (str "AAEC") true none)
      (sampleWGaurd (sampleAccount (str "lic-0")))).1.log).length = 1 ∧
    writtenProfiles (Generate (sampleEnv (str "lic-0") (str "AAEC") true none)
        (sampleWGaurd (sampleAccount (str "lic-0")))).1.log
      = writtenProfiles (Generate (sampleEnv (str "lic-0") (str "/w==") true none)
        (sampleWGaurd (sampleAccount (str "lic-0")))).1.log ∧
    (Generate (sampleEnv (str "lic-0") (str "AAEC") true none)
      (sampleWGaurd (sampleAccount (str "lic-0")))).1.warpConf.Reserved = [0, 1, 2] ∧
    (Generate (sampleEnv (str "lic-0") (str "/w==") true none)
      (sampleWGaurd (sampleAccount (str "lic-0")))).1.warpConf.Reserved = [255] ∧
    (Generate (sampleEnv (str "lic-0") (str "AAEC") true (some "disk full"))
      (sampleWGaurd (sampleAccount (str "lic-0")))).2 = Outcome.ok ∧
    ((Generate (sampleEnv (str "lic-0") (str "AAEC") true (some "disk full"))
      (sampleWGaurd (sampleAccount (str "lic-0")))).1.log.map
        (fun e => (e.isWrite, e.failed)))
      = [(false, false), (false, false), (true, false), (true, true)] := by
  decide

/-- C9, amended. Let `NewProfile` render the tunnel profile as the spec describes
(`renderProfile`) whenever it returns one.  Whenever `Generate` returns success, with
`thisDevice` the device it fetched and `peer0` its first peer: exactly one tunnel profile
was written, it is the rendering of the account's current PrivateKey, the device's V4 and
V6 addresses and `peer0`'s public key and endpoint host, and its text contains the
account's current PrivateKey (no Reserved list goes into it: the rendering has no argument
that depends on the client id); the last call is the write of the profile configuration,
which is handed the final profile configuration and whose answer `r` is not looked at (the
record is persisted when `r` is `none`); the PrivateKey, AddrV4, AddrV6, PublicKey,
Endpoint and ClientID of that profile configuration are the account's PrivateKey and the
device's V4 address, V6 address, `peer0`'s public key, `peer0`'s endpoint host and client
id; the account record is untouched; and when the client id is valid base64, the
`Reserved` list of that profile configuration is the list of the decoded bytes, as long as
the decoded bytes. -/
theorem Generate_success (env : Env) (that that2 : WGaurd)
    (hrender : ∀ d p, env.NewProfile d = Res.ok p → p = renderProfile d)
    (hrun : Generate env that = (that2, Outcome.ok)) :
    ∃ thisDevice peer0 profile r,
      fetchedDevices (newEvents that that2) = [thisDevice] ∧
      thisDevice.Config.Peers.head? = some peer0 ∧
      env.NewProfile
        { PrivateKey := that.wguardConf.PrivateKey,
          Address1 := thisDevice.Config.Interface.Addresses.V4,
          Address2 := thisDevice.Config.Interface.Addresses.V6,
          PublicKey := peer0.PublicKey,
          Endpoint := peer0.Endpoint.Host } = Res.ok profile ∧
      profile = renderProfile
        { PrivateKey := that.wguardConf.PrivateKey,
          Address1 := thisDevice.Config.Interface.Addresses.V4,
          Address2 := thisDevice.Config.Interface.Addresses.V6,
          PublicKey := peer0.PublicKey,
          Endpoint := peer0.Endpoint.Host } ∧
      (∃ before after,
        profile.text = before ++ that.wguardConf.PrivateKey ++ after) ∧
      writtenProfiles (newEvents that that2) = [profile] ∧
      (newEvents that that2).getLast? = some (Event.SaveWarpConf that2.warpConf r) ∧
      that2.wguardConf = that.wguardConf ∧
      that2.warpConf.PrivateKey = that.wguardConf.PrivateKey ∧
      that2.warpConf.AddrV4 = thisDevice.Config.Interface.Addresses.V4 ∧
      that2.warpConf.AddrV6 = thisDevice.Config.Interface.Addresses.V6 ∧
      that2.warpConf.PublicKey = peer0.PublicKey ∧
      that2.warpConf.Endpoint = peer0.Endpoint.Host ∧
      that2.warpConf.ClientID = thisDevice.Config.ClientId ∧
      (∀ decoded, DecodeString thisDevice.Config.ClientId = some decoded →
        that2.warpConf.Reserved = decoded.map Int.ofNat ∧
        that2.warpConf.Reserved.length = decoded.length) := by
  unfold Generate at hrun
  split at hrun
  · cases hrun
  · simp only [WGaurd.record] at hrun
    generalize env.GetSourceDevice _ _ = r1 at hrun
    cases r1 with
    | err e => cases hrun
    | ok thisDevice =>
      simp only [] at hrun
      generalize env.GetSourceBoundDevice _ _ = r2 at hrun
      cases r2 with
      | err e => cases hrun
      | ok bd =>
        simp only [] at hrun
        cases hp : thisDevice.Config.Peers with
        | nil => rw [hp] at hrun; cases hrun
        | cons peer0 rest =>
          rw [hp] at hrun
          simp only [] at hrun
          cases hnp : env.NewProfile
            { PrivateKey := that.wguardConf.PrivateKey,
              Address1 := thisDevice.Config.Interface.Addresses.V4,
              Address2 := thisDevice.Config.Interface.Addresses.V6,
              PublicKey := peer0.PublicKey,
              Endpoint := peer0.Endpoint.Host } with
          | err e => rw [hnp] at hrun; cases hrun
          | ok profile =>
            rw [hnp] at hrun
            simp only [] at hrun
            generalize env.SaveProfile _ _ _ = r4 at hrun
            cases r4 with
            | some e => cases hrun
            | none =>
              simp only [] at hrun
              split at hrun
              · cases hrun
              · rename_i W hW
                obtain ⟨h1, _, h3⟩ := parseReserved_some _ _ hW
                simp only [Prod.mk.injEq, and_true] at hrun
                subst hrun
                have hWlog : W.log = that.log ++
                    [Event.GetSourceDevice (CreateContext that.wguardConf) (.ok thisDevice),
                     Event.GetSourceBoundDevice (CreateContext that.wguardConf) (.ok bd),
                     Event.SaveProfile profile that.warpConfFilePath none] := by
                  rw [h1]; simp
                have hnew : newEvents that (WGaurd.saveWarpConf env W) =
                    [Event.GetSourceDevice (CreateContext that.wguardConf) (.ok thisDevice),
                     Event.GetSourceBoundDevice (CreateContext that.wguardConf) (.ok bd),
                     Event.SaveProfile profile that.warpConfFilePath none,
                     Event.SaveWarpConf W.warpConf (env.SaveWarpConf W.log W.warpConf)] := by
                  simp [newEvents, WGaurd.saveWarpConf, WGaurd.record, hWlog]
                have hprof := hrender _ _ hnp
                refine ⟨thisDevice, peer0, profile, env.SaveWarpConf W.log W.warpConf,
                  ?_, by rw [hp]; rfl, hnp, hprof, ?_, ?_, ?_, ?_, ?_, ?_, ?_, ?_, ?_, ?_, ?_⟩
                · rw [hnew]; rfl
                · rw [hprof]
                  exact renderProfile_contains _
                · rw [hnew]; rfl
                · rw [hnew]; rfl
                all_goals try (show W.wguardConf = _; rw [h1])
                all_goals try (show W.warpConf.PrivateKey = _; rw [h1])
                all_goals try (show W.warpConf.AddrV4 = _; rw [h1])
                all_goals try (show W.warpConf.AddrV6 = _; rw [h1])
                all_goals try (show W.warpConf.PublicKey = _; rw [h1])
                all_goals try (show W.warpConf.Endpoint = _; rw [h1])
                all_goals try (show W.warpConf.ClientID = _; rw [h1])
                intro decoded hd
                have hR : W.warpConf.Reserved = decoded.map Int.ofNat := h3 decoded hd
                show W.warpConf.Reserved = _ ∧ W.warpConf.Reserved.length = _
                rw [hR]
                simp

/-- Witness of C9 amended. -/
theorem Generate_success_witness :
    ∃ (thisDevice : Device) (profile : Profile),
      fetchedDevices (newEvents (sampleWGaurd (sampleAccount (str "lic-0")))
        (Generate (sampleEnv (str "lic-0") (str "AAEC") true none)
          (sampleWGaurd (sampleAccount (str "lic-0")))).1) = [thisDevice] ∧
      writtenProfiles (newEvents (sampleWGaurd (sampleAccount (str "lic-0")))
        (Generate (sampleEnv (str "lic-0") (str "AAEC") true none)
          (sampleWGaurd (sampleAccount (str "lic-0")))).1) = [profile] ∧
      (∃ before after, profile.text = before ++ str "priv-0" ++ after) ∧
      (Generate (sampleEnv (str "lic-0") (str "AAEC") true none)
        (sampleWGaurd (sampleAccount (str "lic-0")))).1.warpConf.ClientID
        = thisDevice.Config.ClientId := by
  obtain ⟨thisDevice, _, profile, _, h1, _, _, _, h3, h4, _, _, _, _, _, _, _, h2, _⟩ :=
    Generate_success (sampleEnv (str "lic-0") (str "AAEC") true none)
      (sampleWGaurd (sampleAccount (str "lic-0")))
      (Generate (sampleEnv (str "lic-0") (str "AAEC") true none)
        (sampleWGaurd (sampleAccount (str "lic-0")))).1
      (fun _ _ h => (Res.ok.inj h).symm)
      (Prod.ext rfl (by decide))
  exact ⟨thisDevice, profile, h1, h4, h3, h2⟩

end Wguard
